import Mathlib

/-!
# MockServer control client (`pkg/mockclient/client.go`)

A shallow embedding of the Go client that drives a MockServer through its REST
control API.  The client has no state of its own besides the base URL; what it
does is a sequence of effects on its collaborators (the test reporter `c.T`,
the JSON encoder, the URL validator and the HTTP client).  The embedding makes
those effects explicit: every operation returns the ordered log of the effects
it performed, and the collaborators whose code lives outside this package are
supplied by an environment `Env`.

* `require.NoError(c.T, err, msg)` with `err != nil` records one failure and then
  calls `t.FailNow()`, which stops the calling goroutine: the log ends there.
* `assert.Fail(c.T, msg)` records one failure and returns: execution continues.
-/

namespace MockClient

/-! ## Data model -/

/-- Modelled from the spec: the `Expectation` struct is declared in a file that is
not part of the sources at hand.  It pairs a request matcher (`Request`) with
response instructions (`Response`) and an occurrence constraint (`Times`); the
client only reads it.  The three field types are parameters. -/
structure Expectation (R A T : Type) where
  Request : R
  Response : A
  Times : T
  deriving DecidableEq, Repr

/-- Modelled from the spec: the `VerificationSequence` struct is declared in a file
that is not part of the sources at hand.  It is an ordered sequence of request
matchers, field `Requests`; its zero value (`&VerificationSequence{}`) has no
requests. -/
structure VerificationSequence (R : Type) where
  Requests : List R := []
  deriving DecidableEq, Repr

/-- The `Client` struct (client.go, lines 18-23).  The field `T *testing.T` is the
test reporter; its effect is the `fatal` and `nonFatal` entries of the log. -/
structure Client where
  BaseURL : String
  deriving DecidableEq, Repr

/-- An HTTP request as built by `http.NewRequest(method, url, reader)`. -/
structure Request where
  Method : String
  URL : String
  Body : String
  deriving DecidableEq, Repr

/-- The fields of `*http.Response` that `callMock` looks at.  `BodyData` and
`BodyErr` are what `ioutil.ReadAll(mockRes.Body)` returns: the bytes read and
the error, `none` standing for `nil`. -/
structure Response where
  StatusCode : Int
  Status : String
  BodyData : String
  BodyErr : Option String
  deriving DecidableEq, Repr

/-- The collaborators of the client whose code is outside this package.
An error result is the text of the Go `error`; `none` stands for a `nil` error. -/
structure Env (R A T : Type) where
  /-- The function `json.Marshal` on an `*Expectation` (`none` is the nil pointer). -/
  marshalExpectation : Option (Expectation R A T) → Except String String
  /-- The function `json.Marshal` on a `*VerificationSequence`. -/
  marshalSequence : VerificationSequence R → Except String String
  /-- The function `url.ParseRequestURI`: the error it returns, if any. -/
  parseRequestURI : String → Option String
  /-- The function `http.NewRequest` given method and URL: the error it returns, if any. -/
  newRequest : String → String → Option String
  /-- The method `(*http.Client).Do` of a client without timeout. -/
  roundTrip : Request → Except String Response

/-- One observable effect of an operation. -/
inductive Event where
  /-- Entry into `callMock(mockAPI, mockReqBody)`. -/
  | call (mockAPI mockReqBody : String)
  /-- A `require.NoError(c.T, err, msg)` with a non-nil `err`: the failure is
  recorded and the test is aborted. -/
  | fatal (err msg : String)
  /-- An `assert.Fail(c.T, msg)`: the failure is recorded and execution goes on. -/
  | nonFatal (msg : String)
  /-- A call of `http.NewRequest(method, url, strings.NewReader(body))`. -/
  | construct (method url body : String)
  /-- A call of `hc.Do(req)`: the request is handed to the HTTP client. -/
  | send (req : Request)
  /-- A call of `ioutil.ReadAll(mockRes.Body)`. -/
  | readBody
  /-- A run-time panic from dereferencing a nil `*Expectation`. -/
  | nilDeref
  deriving DecidableEq, Repr

/-! ## Operations -/

/-- The shared dispatch `callMock` (client.go, lines 78-111). -/
def callMock {R A T : Type} (env : Env R A T) (c : Client)
    (mockAPI mockReqBody : String) : List Event :=
  -- line 79: mockURL := fmt.Sprintf("%s/%s", c.BaseURL, mockAPI)
  let mockURL := c.BaseURL ++ "/" ++ mockAPI
  -- lines 81-84: url.ParseRequestURI(mockURL)
  match env.parseRequestURI mockURL with
  | some err =>
    [Event.call mockAPI mockReqBody,
     Event.fatal err ("'" ++ mockURL ++ "' is not a valid mock server URL")]
  | none =>
    -- lines 91-94: http.NewRequest("PUT", mockURL, reader)
    match env.newRequest "PUT" mockURL with
    | some err =>
      [Event.call mockAPI mockReqBody,
       Event.construct "PUT" mockURL mockReqBody,
       Event.fatal err "Failed to create request to mock server."]
    | none =>
      let mockReq : Request := { Method := "PUT", URL := mockURL, Body := mockReqBody }
      -- lines 95-98: hc.Do(mockReq)
      match env.roundTrip mockReq with
      | Except.error err =>
        [Event.call mockAPI mockReqBody,
         Event.construct "PUT" mockURL mockReqBody,
         Event.send mockReq,
         Event.fatal err "Failed to send request to MockServer."]
      | Except.ok mockRes =>
        -- lines 101-103
        if 200 ≤ mockRes.StatusCode ∧ mockRes.StatusCode ≤ 299 then
          [Event.call mockAPI mockReqBody,
           Event.construct "PUT" mockURL mockReqBody,
           Event.send mockReq]
        else
          -- line 106: b, err := ioutil.ReadAll(mockRes.Body)
          let b := mockRes.BodyData
          [Event.call mockAPI mockReqBody,
           Event.construct "PUT" mockURL mockReqBody,
           Event.send mockReq,
           Event.readBody]
          -- lines 107-109: if err != nil { assert.Fail(...) }
          ++ (match mockRes.BodyErr with
              | some _ =>
                [Event.nonFatal ("MockServer call failed with status: " ++ mockRes.Status)]
              | none => [])
          -- line 110: assert.Fail(...)
          ++ [Event.nonFatal ("MockServer call to /" ++ mockAPI
                ++ " failed with status: " ++ mockRes.Status
                ++ ". Error message from MockServer is: " ++ b)]

/-- The operation `AddExpectation` (client.go, lines 26-34). -/
def AddExpectation {R A T : Type} (env : Env R A T) (c : Client)
    (exp : Option (Expectation R A T)) : List Event :=
  match env.marshalExpectation exp with
  | Except.error err =>
    [Event.fatal err "Failed to serialize mock server expectation."]
  | Except.ok msg => callMock env c "expectation" msg

/-- The operation `AddVerification` (client.go, lines 37-45). -/
def AddVerification {R A T : Type} (env : Env R A T) (c : Client)
    (exp : Option (Expectation R A T)) : List Event :=
  match env.marshalExpectation exp with
  | Except.error err =>
    [Event.fatal err "Failed to serialize mock server verification."]
  | Except.ok msg => callMock env c "verify" msg

/-- The loop of `AddVerificationSequence` (client.go, lines 49-53): starting from
`vs`, append the `Request` of each expectation in turn.  `none` is the panic
of `exp.Request` on a nil pointer. -/
def buildSequence {R A T : Type} :
    VerificationSequence R → List (Option (Expectation R A T)) →
      Option (VerificationSequence R)
  | vs, [] => some vs
  | _, none :: _ => none
  | vs, some exp :: exps =>
    buildSequence { vs with Requests := vs.Requests ++ [exp.Request] } exps

/-- The operation `AddVerificationSequence` (client.go, lines 48-61). -/
def AddVerificationSequence {R A T : Type} (env : Env R A T) (c : Client)
    (exps : List (Option (Expectation R A T))) : List Event :=
  match buildSequence ({} : VerificationSequence R) exps with
  | none => [Event.nilDeref]
  | some vs =>
    match env.marshalSequence vs with
    | Except.error err =>
      [Event.fatal err "Failed to serialize mock server verification sequence."]
    | Except.ok msg => callMock env c "verifySequence" msg

/-- The request body built by `Clear` (client.go, lines 65-69): the raw string
literal of the source, with `path` in the place of `%s`. -/
def clearBody (path : String) : String :=
  "\n\t\t\t\x7b\n\t\t\t\t\"path\": \"" ++ path ++ "\"\n\t\t\t\x7d\n\t\t\t"

/-- The operation `Clear` (client.go, lines 64-71). -/
def Clear {R A T : Type} (env : Env R A T) (c : Client) (path : String) : List Event :=
  callMock env c "clear" (clearBody path)

/-- The operation `Reset` (client.go, lines 74-76). -/
def Reset {R A T : Type} (env : Env R A T) (c : Client) : List Event :=
  callMock env c "reset" ""

/-! ## Reading a log -/

/-- The failures recorded by `require.NoError`, as (error, message). -/
def fatals : List Event → List (String × String)
  | [] => []
  | Event.fatal err msg :: es => (err, msg) :: fatals es
  | _ :: es => fatals es

/-- The messages of the failures recorded by `assert.Fail`. -/
def nonFatals : List Event → List String
  | [] => []
  | Event.nonFatal msg :: es => msg :: nonFatals es
  | _ :: es => nonFatals es

/-- The requests handed to `hc.Do`. -/
def sends : List Event → List Request
  | [] => []
  | Event.send req :: es => req :: sends es
  | _ :: es => sends es

/-- The calls of `http.NewRequest`, as (method, url, body). -/
def constructs : List Event → List (String × String × String)
  | [] => []
  | Event.construct m u b :: es => (m, u, b) :: constructs es
  | _ :: es => constructs es

/-- The invocations of `callMock`, as (endpoint, body). -/
def calls : List Event → List (String × String)
  | [] => []
  | Event.call api body :: es => (api, body) :: calls es
  | _ :: es => calls es

/-- The number of times the response body was read. -/
def bodyReads : List Event → Nat
  | [] => 0
  | Event.readBody :: es => bodyReads es + 1
  | _ :: es => bodyReads es

/-- The HTTP requests that reach the network during a log.  What one call of
`hc.Do(req)` puts on the network is decided inside the HTTP client, not by this
package: `wire req` lists those requests (none when `Do` fails before any I/O,
`[req]` for a single exchange, more when the client follows a redirect). -/
def wireRequests (wire : Request → List Request) : List Event → List Request
  | [] => []
  | Event.send req :: es => wire req ++ wireRequests wire es
  | _ :: es => wireRequests wire es

/-- The number of failures recorded on the test, fatal or not. -/
def failureCount (log : List Event) : Nat :=
  (fatals log).length + (nonFatals log).length

/-- The text `part` occurs verbatim inside `msg`. -/
def containsText (msg part : String) : Prop :=
  part.data <:+: msg.data

instance (msg part : String) : Decidable (containsText msg part) := by
  unfold containsText; infer_instance

/-- A call of one of the five public operations; the expectations handed to
`AddVerificationSequence` are non-nil pointers. -/
inductive Operation (R A T : Type) where
  | addExpectation (exp : Option (Expectation R A T))
  | addVerification (exp : Option (Expectation R A T))
  | addVerificationSequence (exps : List (Expectation R A T))
  | clear (path : String)
  | reset

/-- The endpoint name an operation hands to `callMock`. -/
def Operation.endpoint {R A T : Type} : Operation R A T → String
  | Operation.addExpectation _ => "expectation"
  | Operation.addVerification _ => "verify"
  | Operation.addVerificationSequence _ => "verifySequence"
  | Operation.clear _ => "clear"
  | Operation.reset => "reset"

/-- Run a call of a public operation. -/
def Operation.run {R A T : Type} (env : Env R A T) (c : Client) : Operation R A T → List Event
  | Operation.addExpectation exp => AddExpectation env c exp
  | Operation.addVerification exp => AddVerification env c exp
  | Operation.addVerificationSequence exps => AddVerificationSequence env c (exps.map some)
  | Operation.clear path => Clear env c path
  | Operation.reset => Reset env c

/-- The result of serializing the input of an operation: the JSON encoder's
answer for the three operations that encode, the body itself for the two that
do not. -/
def Operation.serialize {R A T : Type} (env : Env R A T) : Operation R A T → Except String String
  | Operation.addExpectation exp => env.marshalExpectation exp
  | Operation.addVerification exp => env.marshalExpectation exp
  | Operation.addVerificationSequence exps =>
    env.marshalSequence { Requests := exps.map (fun e => e.Request) }
  | Operation.clear path => Except.ok (clearBody path)
  | Operation.reset => Except.ok ""

/-! ## Sample collaborators, used to evaluate the operations on concrete inputs -/

/-- A sample environment: every input serializes to the text `"json"`, every URL
starting with `http://` is accepted, and the server answers `res`. -/
def sampleEnv (res : Except String Response) : Env String String Nat where
  marshalExpectation := fun _ => Except.ok "json"
  marshalSequence := fun vs => Except.ok (String.intercalate "," vs.Requests)
  parseRequestURI := fun u => if "http://".data.isPrefixOf u.data then none else some "invalid URI for request"
  newRequest := fun _ _ => none
  roundTrip := fun _ => res

/-- A sample environment whose JSON encoder rejects every input. -/
def failingEncoderEnv : Env String String Nat where
  marshalExpectation := fun _ => Except.error "json: unsupported value"
  marshalSequence := fun _ => Except.error "json: unsupported value"
  parseRequestURI := fun _ => none
  newRequest := fun _ _ => none
  roundTrip := fun _ => Except.error "connection refused"

/-- A sample environment in which URL validation accepts every text that starts
with `/` while request construction rejects a port that is not a number, as
for the base URL `//a:b`. -/
def strictRequestEnv : Env String String Nat where
  marshalExpectation := fun _ => Except.ok "json"
  marshalSequence := fun _ => Except.ok "json"
  parseRequestURI := fun u => if "/".data.isPrefixOf u.data then none else some "invalid URI for request"
  newRequest := fun _ u =>
    if "//a:b".data.isPrefixOf u.data
    then some ("parse \"" ++ u ++ "\": invalid port \":b\" after host")
    else none
  roundTrip := fun _ =>
    Except.ok { StatusCode := 200, Status := "200 OK", BodyData := "", BodyErr := none }

/-- A sample client whose base URL the sample validator accepts. -/
def sampleClient : Client := { BaseURL := "http://mock:1080" }

/-- A sample client whose base URL the sample validator rejects. -/
def badClient : Client := { BaseURL := "not a url" }

/-- A sample answer: status 500, body `internal error`, body readable. -/
def internalError : Response :=
  { StatusCode := 500, Status := "500 Internal Server Error",
    BodyData := "internal error", BodyErr := none }

/-- A sample answer: status 500 whose body cannot be read. -/
def brokenBody : Response :=
  { StatusCode := 500, Status := "500 Internal Server Error",
    BodyData := "", BodyErr := some "unexpected EOF" }

/-- Sample expectations: two lists with the same requests, in the same order,
and different `Response` and `Times` fields. -/
def sampleExps : List (Expectation String String Nat) :=
  [{ Request := "GET /a", Response := "200", Times := 1 },
   { Request := "POST /b", Response := "201", Times := 2 },
   { Request := "GET /c", Response := "204", Times := 3 }]

/-- The second sample list of expectations. -/
def sampleExpsOther : List (Expectation String String Nat) :=
  [{ Request := "GET /a", Response := "500", Times := 0 },
   { Request := "POST /b", Response := "", Times := 7 },
   { Request := "GET /c", Response := "404", Times := 9 }]

/-- A sample client with the base URL `//a:b`. -/
def portClient : Client := { BaseURL := "//a:b" }

/-- A sample client with an empty base URL. -/
def emptyClient : Client := { BaseURL := "" }

/-- A sample environment for a URL without scheme: validation and request
construction accept every text that starts with `/`, and the HTTP client
refuses the request before any I/O. -/
def noSchemeEnv : Env String String Nat where
  marshalExpectation := fun _ => Except.ok "json"
  marshalSequence := fun _ => Except.ok "json"
  parseRequestURI := fun u => if "/".data.isPrefixOf u.data then none else some "invalid URI for request"
  newRequest := fun _ _ => none
  roundTrip := fun req =>
    Except.error ("Put \"" ++ req.URL ++ "\": unsupported protocol scheme \"\"")

/-- A sample answer: status 200 with an empty body. -/
def okAnswer : Response :=
  { StatusCode := 200, Status := "200 OK", BodyData := "", BodyErr := none }

/-- An HTTP client that performs one exchange per call of `Do`. -/
def directWire : Request → List Request :=
  fun req => [req]

/-- An HTTP client that fails before any I/O: nothing reaches the network. -/
def noWire : Request → List Request :=
  fun _ => []

/-- An HTTP client whose first exchange is answered by a 307 redirect to
`http://mock:1080/moved`: it sends the same PUT again to the new location. -/
def redirectWire : Request → List Request :=
  fun req => [req, { req with URL := "http://mock:1080/moved" }]

/-- Remove the layout characters (newline and tab) from a text. -/
def stripLayout (s : String) : String :=
  String.mk (s.data.filter (fun ch => ch != Char.ofNat 10 && ch != Char.ofNat 9))

/-! ## The branches of `callMock` -/

section Branches

variable {R A T : Type} (env : Env R A T) (c : Client) (mockAPI mockReqBody : String)

theorem callMock_no_request {err : String}
    (hurl : env.parseRequestURI (c.BaseURL ++ "/" ++ mockAPI) = none)
    (hreq : env.newRequest "PUT" (c.BaseURL ++ "/" ++ mockAPI) = some err) :
    callMock env c mockAPI mockReqBody =
      [Event.call mockAPI mockReqBody,
       Event.construct "PUT" (c.BaseURL ++ "/" ++ mockAPI) mockReqBody,
       Event.fatal err "Failed to create request to mock server."] := by
  simp [callMock, hurl, hreq]

theorem callMock_transport_error {err : String}
    (hurl : env.parseRequestURI (c.BaseURL ++ "/" ++ mockAPI) = none)
    (hreq : env.newRequest "PUT" (c.BaseURL ++ "/" ++ mockAPI) = none)
    (hdo : env.roundTrip
      { Method := "PUT", URL := c.BaseURL ++ "/" ++ mockAPI, Body := mockReqBody }
        = Except.error err) :
    callMock env c mockAPI mockReqBody =
      [Event.call mockAPI mockReqBody,
       Event.construct "PUT" (c.BaseURL ++ "/" ++ mockAPI) mockReqBody,
       Event.send { Method := "PUT", URL := c.BaseURL ++ "/" ++ mockAPI, Body := mockReqBody },
       Event.fatal err "Failed to send request to MockServer."] := by
  simp [callMock, hurl, hreq, hdo]

theorem callMock_2xx {res : Response}
    (hurl : env.parseRequestURI (c.BaseURL ++ "/" ++ mockAPI) = none)
    (hreq : env.newRequest "PUT" (c.BaseURL ++ "/" ++ mockAPI) = none)
    (hdo : env.roundTrip
      { Method := "PUT", URL := c.BaseURL ++ "/" ++ mockAPI, Body := mockReqBody }
        = Except.ok res)
    (hs : 200 ≤ res.StatusCode ∧ res.StatusCode ≤ 299) :
    callMock env c mockAPI mockReqBody =
      [Event.call mockAPI mockReqBody,
       Event.construct "PUT" (c.BaseURL ++ "/" ++ mockAPI) mockReqBody,
       Event.send { Method := "PUT", URL := c.BaseURL ++ "/" ++ mockAPI, Body := mockReqBody }] := by
  simp [callMock, hurl, hreq, hdo, hs]

theorem callMock_non2xx_readable {res : Response}
    (hurl : env.parseRequestURI (c.BaseURL ++ "/" ++ mockAPI) = none)
    (hreq : env.newRequest "PUT" (c.BaseURL ++ "/" ++ mockAPI) = none)
    (hdo : env.roundTrip
      { Method := "PUT", URL := c.BaseURL ++ "/" ++ mockAPI, Body := mockReqBody }
        = Except.ok res)
    (hs : ¬ (200 ≤ res.StatusCode ∧ res.StatusCode ≤ 299))
    (hb : res.BodyErr = none) :
    callMock env c mockAPI mockReqBody =
      [Event.call mockAPI mockReqBody,
       Event.construct "PUT" (c.BaseURL ++ "/" ++ mockAPI) mockReqBody,
       Event.send { Method := "PUT", URL := c.BaseURL ++ "/" ++ mockAPI, Body := mockReqBody },
       Event.readBody,
       Event.nonFatal ("MockServer call to /" ++ mockAPI ++ " failed with status: "
         ++ res.Status ++ ". Error message from MockServer is: " ++ res.BodyData)] := by
  simp [callMock, hurl, hreq, hdo, hs, hb]

theorem callMock_non2xx_unreadable {res : Response} {rerr : String}
    (hurl : env.parseRequestURI (c.BaseURL ++ "/" ++ mockAPI) = none)
    (hreq : env.newRequest "PUT" (c.BaseURL ++ "/" ++ mockAPI) = none)
    (hdo : env.roundTrip
      { Method := "PUT", URL := c.BaseURL ++ "/" ++ mockAPI, Body := mockReqBody }
        = Except.ok res)
    (hs : ¬ (200 ≤ res.StatusCode ∧ res.StatusCode ≤ 299))
    (hb : res.BodyErr = some rerr) :
    callMock env c mockAPI mockReqBody =
      [Event.call mockAPI mockReqBody,
       Event.construct "PUT" (c.BaseURL ++ "/" ++ mockAPI) mockReqBody,
       Event.send { Method := "PUT", URL := c.BaseURL ++ "/" ++ mockAPI, Body := mockReqBody },
       Event.readBody,
       Event.nonFatal ("MockServer call failed with status: " ++ res.Status),
       Event.nonFatal ("MockServer call to /" ++ mockAPI ++ " failed with status: "
         ++ res.Status ++ ". Error message from MockServer is: " ++ res.BodyData)] := by
  simp [callMock, hurl, hreq, hdo, hs, hb]

/-- Every invocation of `callMock` is logged once, with the endpoint and body it
was given. -/
theorem calls_callMock :
    calls (callMock env c mockAPI mockReqBody) = [(mockAPI, mockReqBody)] := by
  unfold callMock
  simp only []
  split
  · simp [calls]
  · split
    · simp [calls]
    · split
      · simp [calls]
      · split
        · simp [calls]
        · split <;> simp [calls]

end Branches

/-! ## The operations in terms of `callMock` -/

/-- The loop appends the requests of the expectations, in order, to what the
sequence already holds. -/
theorem buildSequence_map {R A T : Type} (exps : List (Expectation R A T)) :
    ∀ vs : VerificationSequence R,
      buildSequence vs (exps.map some)
        = some { Requests := vs.Requests ++ exps.map (fun e => e.Request) } := by
  induction exps with
  | nil => intro vs; simp [buildSequence]
  | cons e rest ih =>
    intro vs
    simp [buildSequence, ih, List.append_assoc]

/-- The sequence built from non-nil expectations, starting from the zero value. -/
theorem buildSequence_zero {R A T : Type} (exps : List (Expectation R A T)) :
    buildSequence ({} : VerificationSequence R) (exps.map some)
      = some { Requests := exps.map (fun e => e.Request) } := by
  rw [buildSequence_map]; simp

/-- An operation whose input serializes to `body` behaves as
`callMock(endpoint, body)`. -/
theorem run_eq_callMock {R A T : Type} (env : Env R A T) (c : Client)
    (op : Operation R A T) {body : String}
    (hser : op.serialize env = Except.ok body) :
    op.run env c = callMock env c op.endpoint body := by
  cases op with
  | addExpectation exp =>
    simp only [Operation.serialize] at hser
    simp [Operation.run, Operation.endpoint, AddExpectation, hser]
  | addVerification exp =>
    simp only [Operation.serialize] at hser
    simp [Operation.run, Operation.endpoint, AddVerification, hser]
  | addVerificationSequence exps =>
    simp only [Operation.serialize] at hser
    simp [Operation.run, Operation.endpoint, AddVerificationSequence, buildSequence_zero, hser]
  | clear path =>
    simp only [Operation.serialize, Except.ok.injEq] at hser
    simp [Operation.run, Operation.endpoint, Clear, hser]
  | reset =>
    simp only [Operation.serialize, Except.ok.injEq] at hser
    simp [Operation.run, Operation.endpoint, Reset, ← hser]

/-- An operation whose input does not serialize records that error as a fatal
failure and does nothing else. -/
theorem run_serialize_error {R A T : Type} (env : Env R A T) (c : Client)
    (op : Operation R A T) {err : String}
    (hser : op.serialize env = Except.error err) :
    ∃ msg, op.run env c = [Event.fatal err msg] := by
  cases op with
  | addExpectation exp =>
    simp only [Operation.serialize] at hser
    exact ⟨"Failed to serialize mock server expectation.",
      by simp [Operation.run, AddExpectation, hser]⟩
  | addVerification exp =>
    simp only [Operation.serialize] at hser
    exact ⟨"Failed to serialize mock server verification.",
      by simp [Operation.run, AddVerification, hser]⟩
  | addVerificationSequence exps =>
    simp only [Operation.serialize] at hser
    exact ⟨"Failed to serialize mock server verification sequence.",
      by simp [Operation.run, AddVerificationSequence, buildSequence_zero, hser]⟩
  | clear path => simp [Operation.serialize] at hser
  | reset => simp [Operation.serialize] at hser

/-- Once the URL is validated and the request built, `callMock` hands exactly one
request to the HTTP client, whatever comes back. -/
theorem sends_callMock {R A T : Type} (env : Env R A T) (c : Client)
    (mockAPI mockReqBody : String)
    (hurl : env.parseRequestURI (c.BaseURL ++ "/" ++ mockAPI) = none)
    (hreq : env.newRequest "PUT" (c.BaseURL ++ "/" ++ mockAPI) = none) :
    sends (callMock env c mockAPI mockReqBody)
        = [{ Method := "PUT", URL := c.BaseURL ++ "/" ++ mockAPI, Body := mockReqBody }]
      ∧ constructs (callMock env c mockAPI mockReqBody)
        = [("PUT", c.BaseURL ++ "/" ++ mockAPI, mockReqBody)] := by
  cases hdo : env.roundTrip
      { Method := "PUT", URL := c.BaseURL ++ "/" ++ mockAPI, Body := mockReqBody } with
  | error err =>
    rw [callMock_transport_error env c mockAPI mockReqBody hurl hreq hdo]
    simp [sends, constructs]
  | ok res =>
    by_cases hs : 200 ≤ res.StatusCode ∧ res.StatusCode ≤ 299
    · rw [callMock_2xx env c mockAPI mockReqBody hurl hreq hdo hs]
      simp [sends, constructs]
    · cases hb : res.BodyErr with
      | none =>
        rw [callMock_non2xx_readable env c mockAPI mockReqBody hurl hreq hdo hs hb]
        simp [sends, constructs]
      | some rerr =>
        rw [callMock_non2xx_unreadable env c mockAPI mockReqBody hurl hreq hdo hs hb]
        simp [sends, constructs]

/-- The requests on the network are those of the calls of `hc.Do`, in order. -/
theorem wireRequests_eq (wire : Request → List Request) (log : List Event) :
    wireRequests wire log = ((sends log).map wire).flatten := by
  induction log with
  | nil => rfl
  | cons e es ih => cases e <;> simp [wireRequests, sends, ih]

/-- A text occurs inside any text built around it. -/
theorem containsText_mid (pre part post : String) :
    containsText (pre ++ part ++ post) part := by
  unfold containsText
  exact ⟨pre.data, post.data, by simp [String.data_append]⟩

/-! ## Claims -/

/-- C1: when the URL passes validation and the HTTP exchange returns a response
with status code `s`, `callMock` records no failure (fatal or not) and does not
read the response body exactly when `200 ≤ s ≤ 299`; for every other `s` at
least one failure is recorded. -/
theorem callMock_silent_iff_2xx {R A T : Type} (env : Env R A T) (c : Client)
    (mockAPI mockReqBody : String) (res : Response)
    (hurl : env.parseRequestURI (c.BaseURL ++ "/" ++ mockAPI) = none)
    (hreq : env.newRequest "PUT" (c.BaseURL ++ "/" ++ mockAPI) = none)
    (hdo : env.roundTrip
      { Method := "PUT", URL := c.BaseURL ++ "/" ++ mockAPI, Body := mockReqBody }
        = Except.ok res) :
    ((fatals (callMock env c mockAPI mockReqBody) = []
        ∧ nonFatals (callMock env c mockAPI mockReqBody) = []
        ∧ bodyReads (callMock env c mockAPI mockReqBody) = 0)
      ↔ (200 ≤ res.StatusCode ∧ res.StatusCode ≤ 299))
    ∧ (¬ (200 ≤ res.StatusCode ∧ res.StatusCode ≤ 299) →
        1 ≤ failureCount (callMock env c mockAPI mockReqBody)) := by
  by_cases hs : 200 ≤ res.StatusCode ∧ res.StatusCode ≤ 299
  · rw [callMock_2xx env c mockAPI mockReqBody hurl hreq hdo hs]
    simp [fatals, nonFatals, bodyReads, hs]
  · cases hb : res.BodyErr with
    | none =>
      rw [callMock_non2xx_readable env c mockAPI mockReqBody hurl hreq hdo hs hb]
      simp [fatals, nonFatals, bodyReads, failureCount, hs]
    | some rerr =>
      rw [callMock_non2xx_unreadable env c mockAPI mockReqBody hurl hreq hdo hs hb]
      simp [fatals, nonFatals, bodyReads, failureCount, hs]

/-- C1 at a concrete exchange: a 201 answer to `callMock("verify", "json")`. -/
theorem callMock_silent_iff_2xx_witness :
    ((fatals (callMock (sampleEnv (Except.ok
          { StatusCode := 201, Status := "201 Created", BodyData := "", BodyErr := none }))
          { BaseURL := "http://mock:1080" } "verify" "json") = []
        ∧ nonFatals (callMock (sampleEnv (Except.ok
          { StatusCode := 201, Status := "201 Created", BodyData := "", BodyErr := none }))
          { BaseURL := "http://mock:1080" } "verify" "json") = []
        ∧ bodyReads (callMock (sampleEnv (Except.ok
          { StatusCode := 201, Status := "201 Created", BodyData := "", BodyErr := none }))
          { BaseURL := "http://mock:1080" } "verify" "json") = 0)
      ↔ ((200 : Int) ≤ 201 ∧ (201 : Int) ≤ 299))
    ∧ (¬ ((200 : Int) ≤ 201 ∧ (201 : Int) ≤ 299) →
        1 ≤ failureCount (callMock (sampleEnv (Except.ok
          { StatusCode := 201, Status := "201 Created", BodyData := "", BodyErr := none }))
          { BaseURL := "http://mock:1080" } "verify" "json")) :=
  callMock_silent_iff_2xx
    (sampleEnv (Except.ok
      { StatusCode := 201, Status := "201 Created", BodyData := "", BodyErr := none }))
    { BaseURL := "http://mock:1080" } "verify" "json"
    { StatusCode := 201, Status := "201 Created", BodyData := "", BodyErr := none }
    (by decide) rfl rfl

/-- C2: for every endpoint, a non-2xx response whose body is readable leads to
exactly one recorded failure; it is non-fatal and its message contains the
endpoint name, the HTTP status line and the body text verbatim. -/
theorem callMock_non2xx_one_nonFatal {R A T : Type} (env : Env R A T) (c : Client)
    (mockAPI mockReqBody : String) (res : Response)
    (hurl : env.parseRequestURI (c.BaseURL ++ "/" ++ mockAPI) = none)
    (hreq : env.newRequest "PUT" (c.BaseURL ++ "/" ++ mockAPI) = none)
    (hdo : env.roundTrip
      { Method := "PUT", URL := c.BaseURL ++ "/" ++ mockAPI, Body := mockReqBody }
        = Except.ok res)
    (hs : ¬ (200 ≤ res.StatusCode ∧ res.StatusCode ≤ 299))
    (hb : res.BodyErr = none) :
    failureCount (callMock env c mockAPI mockReqBody) = 1
      ∧ fatals (callMock env c mockAPI mockReqBody) = []
      ∧ ∃ msg, nonFatals (callMock env c mockAPI mockReqBody) = [msg]
          ∧ containsText msg mockAPI
          ∧ containsText msg res.Status
          ∧ containsText msg res.BodyData := by
  rw [callMock_non2xx_readable env c mockAPI mockReqBody hurl hreq hdo hs hb]
  refine ⟨by simp [failureCount, fatals, nonFatals], by simp [fatals], _, rfl, ?_, ?_, ?_⟩
  · have h := containsText_mid "MockServer call to /" mockAPI
      (" failed with status: " ++ res.Status
        ++ ". Error message from MockServer is: " ++ res.BodyData)
    simpa [String.append_assoc] using h
  · have h := containsText_mid ("MockServer call to /" ++ mockAPI ++ " failed with status: ")
      res.Status (". Error message from MockServer is: " ++ res.BodyData)
    simpa [String.append_assoc] using h
  · have h := containsText_mid ("MockServer call to /" ++ mockAPI ++ " failed with status: "
      ++ res.Status ++ ". Error message from MockServer is: ") res.BodyData ""
    simpa [String.append_assoc] using h

/-- C2 at a concrete exchange: a 500 answer with body `internal error` to
`callMock("expectation", "json")`. -/
theorem callMock_non2xx_one_nonFatal_witness :
    ¬ (200 ≤ internalError.StatusCode ∧ internalError.StatusCode ≤ 299)
      ∧ failureCount (callMock (sampleEnv (Except.ok internalError)) sampleClient
          "expectation" "json") = 1
      ∧ fatals (callMock (sampleEnv (Except.ok internalError)) sampleClient
          "expectation" "json") = []
      ∧ ∃ msg, nonFatals (callMock (sampleEnv (Except.ok internalError)) sampleClient
            "expectation" "json") = [msg]
          ∧ containsText msg "expectation"
          ∧ containsText msg "500 Internal Server Error"
          ∧ containsText msg "internal error" :=
  ⟨by decide,
   callMock_non2xx_one_nonFatal (sampleEnv (Except.ok internalError)) sampleClient
    "expectation" "json" internalError (by decide) rfl rfl (by decide) rfl⟩

/-- C3 (the code at the failing input): a 500 answer whose body cannot be read
makes `callMock` record two failures, the status-only message and then the
message with endpoint and body text. -/
theorem callMock_unreadable_body_two_failures :
    nonFatals (callMock (sampleEnv (Except.ok brokenBody)) sampleClient "reset" "")
      = ["MockServer call failed with status: 500 Internal Server Error",
         "MockServer call to /reset failed with status: 500 Internal Server Error. Error message from MockServer is: "]
      ∧ failureCount (callMock (sampleEnv (Except.ok brokenBody)) sampleClient "reset" "") = 2 := by
  decide

/-- C8: with a valid URL and a request that could be built, a transport failure
of the HTTP exchange makes every operation record exactly one fatal failure,
carrying the transport error, right after the request was sent: nothing
follows it, so no response body is read and no non-fatal failure is
recorded. -/
theorem transport_error_one_fatal {R A T : Type} (env : Env R A T) (c : Client)
    (op : Operation R A T) (body err : String)
    (hser : op.serialize env = Except.ok body)
    (hurl : env.parseRequestURI (c.BaseURL ++ "/" ++ op.endpoint) = none)
    (hreq : env.newRequest "PUT" (c.BaseURL ++ "/" ++ op.endpoint) = none)
    (hdo : env.roundTrip
      { Method := "PUT", URL := c.BaseURL ++ "/" ++ op.endpoint, Body := body }
        = Except.error err) :
    op.run env c =
        [Event.call op.endpoint body,
         Event.construct "PUT" (c.BaseURL ++ "/" ++ op.endpoint) body,
         Event.send { Method := "PUT", URL := c.BaseURL ++ "/" ++ op.endpoint, Body := body },
         Event.fatal err "Failed to send request to MockServer."]
      ∧ fatals (op.run env c) = [(err, "Failed to send request to MockServer.")]
      ∧ nonFatals (op.run env c) = []
      ∧ bodyReads (op.run env c) = 0 := by
  rw [run_eq_callMock env c op hser,
    callMock_transport_error env c op.endpoint body hurl hreq hdo]
  simp [fatals, nonFatals, bodyReads]

/-- C8 at a concrete input: `Clear("/foo")` against a server that refuses the
connection. -/
theorem transport_error_one_fatal_witness :
    (sampleEnv (Except.error "connection refused")).roundTrip
        { Method := "PUT", URL := "http://mock:1080/clear", Body := clearBody "/foo" }
        = Except.error "connection refused"
      ∧ fatals (Operation.run (sampleEnv (Except.error "connection refused")) sampleClient
          (Operation.clear "/foo"))
        = [("connection refused", "Failed to send request to MockServer.")]
      ∧ nonFatals (Operation.run (sampleEnv (Except.error "connection refused")) sampleClient
          (Operation.clear "/foo")) = []
      ∧ bodyReads (Operation.run (sampleEnv (Except.error "connection refused")) sampleClient
          (Operation.clear "/foo")) = 0 :=
  ⟨rfl,
   (transport_error_one_fatal (sampleEnv (Except.error "connection refused")) sampleClient
    (Operation.clear "/foo") (clearBody "/foo") "connection refused"
    rfl (by decide) rfl rfl).2⟩

/-- C4: for non-nil expectations `e1..en`, the sequence `AddVerificationSequence`
serializes has `Requests = [e1.Request, ..., en.Request]` (same length, same
order), and two lists that agree on every `Request` give the same behaviour,
whatever their other fields hold. -/
theorem AddVerificationSequence_requests {R A T : Type} (env : Env R A T) (c : Client)
    (exps exps2 : List (Expectation R A T))
    (hreqs : exps.map (fun e => e.Request) = exps2.map (fun e => e.Request)) :
    buildSequence ({} : VerificationSequence R) (exps.map some)
        = some { Requests := exps.map (fun e => e.Request) }
      ∧ (exps.map (fun e => e.Request)).length = exps.length
      ∧ (∀ i (h : i < exps.length),
          (exps.map (fun e => e.Request))[i]? = some (exps.get ⟨i, h⟩).Request)
      ∧ AddVerificationSequence env c (exps.map some)
        = (match env.marshalSequence { Requests := exps.map (fun e => e.Request) } with
           | Except.error err =>
             [Event.fatal err "Failed to serialize mock server verification sequence."]
           | Except.ok msg => callMock env c "verifySequence" msg)
      ∧ AddVerificationSequence env c (exps.map some)
        = AddVerificationSequence env c (exps2.map some) := by
  refine ⟨buildSequence_zero exps, by simp, ?_, ?_, ?_⟩
  · intro i h
    simp [List.getElem?_map, List.getElem?_eq_getElem h]
  · simp [AddVerificationSequence, buildSequence_zero]
  · simp [AddVerificationSequence, buildSequence_zero, hreqs]

/-- C4 at a concrete input: two lists of three expectations with equal requests
and different responses and times. -/
theorem AddVerificationSequence_requests_witness :
    sampleExps.map (fun e => e.Request) = sampleExpsOther.map (fun e => e.Request)
      ∧ sampleExps ≠ sampleExpsOther
      ∧ buildSequence ({} : VerificationSequence String) (sampleExps.map some)
        = some { Requests := ["GET /a", "POST /b", "GET /c"] }
      ∧ AddVerificationSequence (sampleEnv (Except.ok internalError)) sampleClient
          (sampleExps.map some)
        = AddVerificationSequence (sampleEnv (Except.ok internalError)) sampleClient
          (sampleExpsOther.map some) :=
  ⟨by decide, by decide,
   (AddVerificationSequence_requests (sampleEnv (Except.ok internalError)) sampleClient
      sampleExps sampleExpsOther (by decide)).1,
   (AddVerificationSequence_requests (sampleEnv (Except.ok internalError)) sampleClient
      sampleExps sampleExpsOther (by decide)).2.2.2.2⟩

/-- C5 (as stated, refuted): the body `Clear("/foo/bar")` hands to the clear
endpoint is not the one-line text with `"path": "/foo/bar"` between two braces;
it carries the line breaks and tabs of the source literal. -/
theorem Clear_compact_text_refuted :
    calls (Clear (sampleEnv (Except.ok internalError)) sampleClient "/foo/bar")
      ≠ [("clear", "\x7b\"path\": \"/foo/bar\"\x7d")] := by
  decide

/-- C5 (amended): for every path `p`, the body `Clear(p)` hands to the clear
endpoint is: newline, three tabs, an opening brace, newline, four tabs, the
characters `"path": "`, then `p`, then `"`, newline, three tabs, a closing
brace, newline, three tabs.  When `p` holds no newline or tab, removing the
newlines and tabs from the body leaves the compact text: an opening brace,
`"path": "`, `p`, `"`, a closing brace. -/
theorem Clear_body {R A T : Type} (env : Env R A T) (c : Client) (p : String) :
    calls (Clear env c p)
        = [("clear", "\n\t\t\t\x7b\n\t\t\t\t\"path\": \"" ++ p ++ "\"\n\t\t\t\x7d\n\t\t\t")]
      ∧ ((∀ ch ∈ p.data, ch ≠ Char.ofNat 10 ∧ ch ≠ Char.ofNat 9) →
          (calls (Clear env c p)).map (fun x => (x.1, stripLayout x.2))
            = [("clear", "\x7b\"path\": \"" ++ p ++ "\"\x7d")]) := by
  constructor
  · simp [Clear, calls_callMock, clearBody]
  · intro hp
    have hkeep : p.data.filter (fun ch => ch != Char.ofNat 10 && ch != Char.ofNat 9) = p.data := by
      rw [List.filter_eq_self]
      intro ch hch
      have h := hp ch hch
      simp [h.1, h.2]
    have hpre : ("\n\t\t\t\x7b\n\t\t\t\t\"path\": \"".data.filter
        (fun ch => ch != Char.ofNat 10 && ch != Char.ofNat 9)) = "\x7b\"path\": \"".data := by
      decide
    have hpost : ("\"\n\t\t\t\x7d\n\t\t\t".data.filter
        (fun ch => ch != Char.ofNat 10 && ch != Char.ofNat 9)) = "\"\x7d".data := by
      decide
    simp only [Clear, calls_callMock, clearBody, List.map_cons, List.map_nil]
    congr 2
    apply String.ext
    simp only [stripLayout, String.data_append, List.filter_append, hkeep, hpre, hpost]

/-- C5 (amended) at the input `Clear("/foo/bar")`. -/
theorem Clear_body_witness :
    (∀ ch ∈ "/foo/bar".data, ch ≠ Char.ofNat 10 ∧ ch ≠ Char.ofNat 9)
      ∧ calls (Clear (sampleEnv (Except.ok internalError)) sampleClient "/foo/bar")
        = [("clear", "\n\t\t\t\x7b\n\t\t\t\t\"path\": \"/foo/bar\"\n\t\t\t\x7d\n\t\t\t")]
      ∧ (calls (Clear (sampleEnv (Except.ok internalError)) sampleClient "/foo/bar")).map
          (fun x => (x.1, stripLayout x.2))
        = [("clear", "\x7b\"path\": \"/foo/bar\"\x7d")] :=
  ⟨by decide,
   (Clear_body (sampleEnv (Except.ok internalError)) sampleClient "/foo/bar").1,
   (Clear_body (sampleEnv (Except.ok internalError)) sampleClient "/foo/bar").2 (by decide)⟩

/-- C6 (as stated, refuted): passing validation and serializing do not make an
operation issue exactly one HTTP request.  With the base URL `//a:b` the URL of
`Reset()` passes validation, yet `http.NewRequest` rejects it and `hc.Do` is
never called.  With an empty base URL `hc.Do` is called once and fails before
any I/O, so no request reaches the network.  With an HTTP client that follows
a 307 redirect, the one call of `hc.Do` puts two PUT requests on the network. -/
theorem Reset_not_one_http_request :
    (strictRequestEnv.parseRequestURI (portClient.BaseURL ++ "/" ++ "reset") = none
      ∧ (Operation.reset : Operation String String Nat).serialize strictRequestEnv
        = Except.ok ""
      ∧ sends (Operation.run strictRequestEnv portClient Operation.reset) = []
      ∧ fatals (Operation.run strictRequestEnv portClient Operation.reset)
        = [("parse \"//a:b/reset\": invalid port \":b\" after host",
            "Failed to create request to mock server.")])
    ∧ (noSchemeEnv.parseRequestURI (emptyClient.BaseURL ++ "/" ++ "reset") = none
      ∧ sends (Operation.run noSchemeEnv emptyClient Operation.reset)
        = [{ Method := "PUT", URL := "/reset", Body := "" }]
      ∧ wireRequests noWire (Operation.run noSchemeEnv emptyClient Operation.reset) = [])
    ∧ ((sampleEnv (Except.ok okAnswer)).parseRequestURI
          (sampleClient.BaseURL ++ "/" ++ "reset") = none
      ∧ sends (Operation.run (sampleEnv (Except.ok okAnswer)) sampleClient Operation.reset)
        = [{ Method := "PUT", URL := "http://mock:1080/reset", Body := "" }]
      ∧ wireRequests redirectWire
          (Operation.run (sampleEnv (Except.ok okAnswer)) sampleClient Operation.reset)
        = [{ Method := "PUT", URL := "http://mock:1080/reset", Body := "" },
           { Method := "PUT", URL := "http://mock:1080/moved", Body := "" }]) :=
  ⟨⟨by decide, rfl, by decide, by decide⟩,
   ⟨by decide, by decide, by decide⟩,
   ⟨by decide, by decide, by decide⟩⟩

/-- C6 (amended): for every base URL `b` such that `b/endpoint` passes validation
and the request object can be built, and every input that serializes, each
public operation builds exactly one request and calls `hc.Do` exactly once
with it, whatever `Do` returns: method PUT, URL `b ++ "/" ++ endpoint`
(expectation, verify, verifySequence, clear, reset for the five operations),
body the serialized input; the body `Reset` passes is empty.  The requests on
the network are those of that one call of `Do`: exactly one, the PUT itself,
when the HTTP client performs a single exchange for it. -/
theorem operation_sends_one_put {R A T : Type} (env : Env R A T) (c : Client)
    (op : Operation R A T) (body : String)
    (hser : op.serialize env = Except.ok body)
    (hurl : env.parseRequestURI (c.BaseURL ++ "/" ++ op.endpoint) = none)
    (hreq : env.newRequest "PUT" (c.BaseURL ++ "/" ++ op.endpoint) = none) :
    sends (op.run env c)
        = [{ Method := "PUT", URL := c.BaseURL ++ "/" ++ op.endpoint, Body := body }]
      ∧ constructs (op.run env c) = [("PUT", c.BaseURL ++ "/" ++ op.endpoint, body)]
      ∧ (∀ exp, op = Operation.addExpectation exp →
          sends (AddExpectation env c exp)
            = [{ Method := "PUT", URL := c.BaseURL ++ "/expectation", Body := body }])
      ∧ (∀ exp, op = Operation.addVerification exp →
          sends (AddVerification env c exp)
            = [{ Method := "PUT", URL := c.BaseURL ++ "/verify", Body := body }])
      ∧ (∀ exps, op = Operation.addVerificationSequence exps →
          sends (AddVerificationSequence env c (exps.map some))
            = [{ Method := "PUT", URL := c.BaseURL ++ "/verifySequence", Body := body }])
      ∧ (∀ path, op = Operation.clear path →
          sends (Clear env c path)
            = [{ Method := "PUT", URL := c.BaseURL ++ "/clear", Body := body }])
      ∧ (op = Operation.reset →
          sends (Reset env c) = [{ Method := "PUT", URL := c.BaseURL ++ "/reset", Body := "" }])
      ∧ (∀ wire : Request → List Request,
          wireRequests wire (op.run env c)
            = wire { Method := "PUT", URL := c.BaseURL ++ "/" ++ op.endpoint, Body := body })
      ∧ (∀ wire : Request → List Request,
          wire { Method := "PUT", URL := c.BaseURL ++ "/" ++ op.endpoint, Body := body }
            = [{ Method := "PUT", URL := c.BaseURL ++ "/" ++ op.endpoint, Body := body }] →
          wireRequests wire (op.run env c)
            = [{ Method := "PUT", URL := c.BaseURL ++ "/" ++ op.endpoint, Body := body }]) := by
  have hrun := run_eq_callMock env c op hser
  have hcall := sends_callMock env c op.endpoint body hurl hreq
  rw [← hrun] at hcall
  have hwire : ∀ wire : Request → List Request,
      wireRequests wire (op.run env c)
        = wire { Method := "PUT", URL := c.BaseURL ++ "/" ++ op.endpoint, Body := body } := by
    intro wire
    rw [wireRequests_eq, hcall.1]
    simp
  refine ⟨hcall.1, hcall.2, ?_, ?_, ?_, ?_, ?_, hwire, ?_⟩
  · intro exp hop
    subst hop
    simpa [Operation.run, Operation.endpoint, String.append_assoc] using hcall.1
  · intro exp hop
    subst hop
    simpa [Operation.run, Operation.endpoint, String.append_assoc] using hcall.1
  · intro exps hop
    subst hop
    simpa [Operation.run, Operation.endpoint, String.append_assoc] using hcall.1
  · intro path hop
    subst hop
    simpa [Operation.run, Operation.endpoint, String.append_assoc] using hcall.1
  · intro hop
    subst hop
    have hb : body = "" := by
      simp only [Operation.serialize, Except.ok.injEq] at hser
      exact hser.symm
    subst hb
    simpa [Operation.run, Operation.endpoint, String.append_assoc] using hcall.1
  · intro wire hone
    rw [hwire wire, hone]

/-- C6 (amended) at a concrete input: `AddExpectation` against a server that
answers 500, through an HTTP client that performs one exchange. -/
theorem operation_sends_one_put_witness :
    (sampleEnv (Except.ok internalError)).parseRequestURI
        (sampleClient.BaseURL ++ "/" ++ "expectation") = none
      ∧ (sampleEnv (Except.ok internalError)).newRequest "PUT"
        (sampleClient.BaseURL ++ "/" ++ "expectation") = none
      ∧ sends (Operation.run (sampleEnv (Except.ok internalError)) sampleClient
          (Operation.addExpectation none))
        = [{ Method := "PUT", URL := "http://mock:1080" ++ "/" ++ "expectation", Body := "json" }]
      ∧ wireRequests directWire (Operation.run (sampleEnv (Except.ok internalError))
          sampleClient (Operation.addExpectation none))
        = [{ Method := "PUT", URL := "http://mock:1080" ++ "/" ++ "expectation", Body := "json" }] :=
  ⟨by decide, rfl,
   (operation_sends_one_put (sampleEnv (Except.ok internalError)) sampleClient
      (Operation.addExpectation none) "json" rfl (by decide) rfl).1,
   (operation_sends_one_put (sampleEnv (Except.ok internalError)) sampleClient
      (Operation.addExpectation none) "json" rfl (by decide) rfl).2.2.2.2.2.2.2.2
      directWire rfl⟩

/-- C9: when JSON serialization fails in `AddExpectation`, `AddVerification` or
`AddVerificationSequence`, the only effect of the operation is one fatal
failure carrying the encoder's error: `callMock` is not entered, no request
is constructed and none is sent. -/
theorem serialization_error_aborts {R A T : Type} (env : Env R A T) (c : Client)
    (err : String) :
    (∀ exp, env.marshalExpectation exp = Except.error err →
        AddExpectation env c exp
          = [Event.fatal err "Failed to serialize mock server expectation."])
      ∧ (∀ exp, env.marshalExpectation exp = Except.error err →
        AddVerification env c exp
          = [Event.fatal err "Failed to serialize mock server verification."])
      ∧ (∀ exps : List (Expectation R A T),
        env.marshalSequence { Requests := exps.map (fun e => e.Request) } = Except.error err →
        AddVerificationSequence env c (exps.map some)
          = [Event.fatal err "Failed to serialize mock server verification sequence."])
      ∧ (∀ op : Operation R A T, op.serialize env = Except.error err →
        calls (op.run env c) = [] ∧ constructs (op.run env c) = []
          ∧ sends (op.run env c) = []
          ∧ (fatals (op.run env c)).map Prod.fst = [err]
          ∧ nonFatals (op.run env c) = []) := by
  refine ⟨?_, ?_, ?_, ?_⟩
  · intro exp h
    simp [AddExpectation, h]
  · intro exp h
    simp [AddVerification, h]
  · intro exps h
    simp [AddVerificationSequence, buildSequence_zero, h]
  · intro op h
    obtain ⟨msg, hrun⟩ := run_serialize_error env c op h
    rw [hrun]
    simp [calls, constructs, sends, fatals, nonFatals]

/-- C9 at a concrete input: the three encoding operations with an encoder that
rejects its input. -/
theorem serialization_error_aborts_witness :
    failingEncoderEnv.marshalExpectation none = Except.error "json: unsupported value"
      ∧ AddExpectation failingEncoderEnv sampleClient none
        = [Event.fatal "json: unsupported value" "Failed to serialize mock server expectation."]
      ∧ AddVerification failingEncoderEnv sampleClient none
        = [Event.fatal "json: unsupported value" "Failed to serialize mock server verification."]
      ∧ AddVerificationSequence failingEncoderEnv sampleClient (sampleExps.map some)
        = [Event.fatal "json: unsupported value"
            "Failed to serialize mock server verification sequence."]
      ∧ sends (Operation.run failingEncoderEnv sampleClient
          (Operation.addVerificationSequence sampleExps)) = [] :=
  ⟨rfl,
   (serialization_error_aborts failingEncoderEnv sampleClient "json: unsupported value").1
      none rfl,
   (serialization_error_aborts failingEncoderEnv sampleClient "json: unsupported value").2.1
      none rfl,
   (serialization_error_aborts failingEncoderEnv sampleClient "json: unsupported value").2.2.1
      sampleExps rfl,
   ((serialization_error_aborts failingEncoderEnv sampleClient "json: unsupported value").2.2.2
      (Operation.addVerificationSequence sampleExps) rfl).2.2.1⟩

/-- C10 (as stated, refuted): with zero expectations and the base URL
`not a url` the empty sequence serializes, yet the URL check records a fatal
failure and no PUT is made: `hc.Do` is not called. -/
theorem AddVerificationSequence_empty_no_put :
    (sampleEnv (Except.ok okAnswer)).marshalSequence { Requests := [] } = Except.ok ""
      ∧ sends (AddVerificationSequence (sampleEnv (Except.ok okAnswer)) badClient []) = []
      ∧ constructs (AddVerificationSequence (sampleEnv (Except.ok okAnswer)) badClient []) = []
      ∧ fatals (AddVerificationSequence (sampleEnv (Except.ok okAnswer)) badClient [])
        = [("invalid URI for request",
            "'not a url/verifySequence' is not a valid mock server URL")] :=
  ⟨rfl, by decide, by decide, by decide⟩

/-- C10 (amended): `AddVerificationSequence` with zero expectations builds a
sequence whose `Requests` is empty and does not skip the call: it serializes
the empty sequence and, when that succeeds, enters
`callMock("verifySequence", body)` exactly once.  When moreover the URL
validates and the request object can be built, `hc.Do` is called exactly once,
with a PUT request to `{baseURL}/verifySequence`, and that PUT is the one
request on the network when the HTTP client performs a single exchange. -/
theorem AddVerificationSequence_empty {R A T : Type} (env : Env R A T) (c : Client) :
    buildSequence ({} : VerificationSequence R) ([] : List (Option (Expectation R A T)))
        = some { Requests := [] }
      ∧ AddVerificationSequence env c []
        = (match env.marshalSequence { Requests := [] } with
           | Except.error err =>
             [Event.fatal err "Failed to serialize mock server verification sequence."]
           | Except.ok msg => callMock env c "verifySequence" msg)
      ∧ ∀ msg, env.marshalSequence { Requests := [] } = Except.ok msg →
          AddVerificationSequence env c [] = callMock env c "verifySequence" msg
          ∧ calls (AddVerificationSequence env c []) = [("verifySequence", msg)]
          ∧ (env.parseRequestURI (c.BaseURL ++ "/" ++ "verifySequence") = none →
              env.newRequest "PUT" (c.BaseURL ++ "/" ++ "verifySequence") = none →
              sends (AddVerificationSequence env c [])
                  = [{ Method := "PUT", URL := c.BaseURL ++ "/" ++ "verifySequence",
                       Body := msg }]
                ∧ ∀ wire : Request → List Request,
                    wire { Method := "PUT", URL := c.BaseURL ++ "/" ++ "verifySequence",
                           Body := msg }
                      = [{ Method := "PUT", URL := c.BaseURL ++ "/" ++ "verifySequence",
                           Body := msg }] →
                    wireRequests wire (AddVerificationSequence env c [])
                      = [{ Method := "PUT", URL := c.BaseURL ++ "/" ++ "verifySequence",
                           Body := msg }]) := by
  refine ⟨by simp [buildSequence], by simp [AddVerificationSequence, buildSequence], ?_⟩
  intro msg hser
  have hrun : AddVerificationSequence env c [] = callMock env c "verifySequence" msg := by
    simp [AddVerificationSequence, buildSequence, hser]
  refine ⟨hrun, ?_, ?_⟩
  · rw [hrun, calls_callMock]
  · intro hurl hreq
    have hs := (sends_callMock env c "verifySequence" msg hurl hreq).1
    rw [hrun]
    refine ⟨hs, ?_⟩
    intro wire hone
    rw [wireRequests_eq, hs]
    simp [hone]

/-- C10 (amended) at a concrete input: the sample client, a server that answers
500 and an HTTP client that performs one exchange. -/
theorem AddVerificationSequence_empty_witness :
    (sampleEnv (Except.ok internalError)).marshalSequence { Requests := [] } = Except.ok ""
      ∧ calls (AddVerificationSequence (sampleEnv (Except.ok internalError)) sampleClient [])
        = [("verifySequence", "")]
      ∧ sends (AddVerificationSequence (sampleEnv (Except.ok internalError)) sampleClient [])
        = [{ Method := "PUT", URL := "http://mock:1080" ++ "/" ++ "verifySequence", Body := "" }]
      ∧ wireRequests directWire
          (AddVerificationSequence (sampleEnv (Except.ok internalError)) sampleClient [])
        = [{ Method := "PUT", URL := "http://mock:1080" ++ "/" ++ "verifySequence", Body := "" }] :=
  ⟨rfl,
   ((AddVerificationSequence_empty (sampleEnv (Except.ok internalError)) sampleClient).2.2
      "" rfl).2.1,
   (((AddVerificationSequence_empty (sampleEnv (Except.ok internalError)) sampleClient).2.2
      "" rfl).2.2 (by decide) rfl).1,
   (((AddVerificationSequence_empty (sampleEnv (Except.ok internalError)) sampleClient).2.2
      "" rfl).2.2 (by decide) rfl).2 directWire rfl⟩

end MockClient
